import Mathlib

/-!
Shallow embedding of `src/src/lib.rs` of the zcash-local-net repository:
process supervision and readiness detection for the `zcashd` and `zainod`
daemons.  Effectful steps (tempdir creation, config writing, process spawn,
`try_wait`, log reads, `zcash-cli` invocation, `wait`, `kill`) are modelled
by explicit environment records and observation traces; the control flow of
`launch`, `stop`, `drop`, `default`, `zcash_cli_command` and
`generate_blocks` is translated directly from the source.
-/

/-- Character-list prefix test used to implement Rust `str::contains`. -/
def strHeadMatch : List Char → List Char → Bool
  | [], _ => true
  | _ :: _, [] => false
  | p :: ps, c :: cs => p == c && strHeadMatch ps cs

/-- Scan a character list for an occurrence of the pattern at any position. -/
def strFindSub (pat : List Char) : List Char → Bool
  | [] => strHeadMatch pat []
  | c :: cs => strHeadMatch pat (c :: cs) || strFindSub pat cs

/-- Rust `str::contains`: `pat` occurs as a contiguous substring of `s`. -/
def strContains (s pat : String) : Bool := strFindSub pat.toList s.toList

/-- Result of one `Child::try_wait` call as observed by the readiness loop:
the process is still running, has exited with a status, or `try_wait`
itself returned an error (src lines 94, 113-116 / 272, 291-294). -/
inductive TryWaitResult where
  | stillRunning
  | exited (exit_status : Int)
  | errored (msg : String)
deriving Repr, DecidableEq

/-- One iteration of the readiness-polling loop observes the `try_wait`
result, the accumulated content of the stdout log file at this iteration's
read, and (used only on the exit branch) the captured stderr content. -/
structure PollObs where
  tryWait : TryWaitResult
  log : String
  stderr : String
deriving Repr, DecidableEq

/-- Modelled from the spec: the `error` module (`pub mod error`) is not under
src/; the `LaunchError::ProcessFailed` variant and its four fields are taken
from its construction sites in src/src/lib.rs lines 106-111 and 284-289. -/
inductive LaunchError where
  | ProcessFailed (process_name : String) (exit_status : Int)
      (stdout : String) (stderr : String)
deriving Repr, DecidableEq

/-- Outcome of the readiness loop: `break` with success, `return Err`,
a panic, or `polling` when the observed trace ends without a decision
(the real loop would keep polling). -/
inductive LoopOutcome where
  | ready
  | failed (e : LaunchError)
  | panicked (msg : String)
  | polling
deriving Repr, DecidableEq

/-- Success marker scanned for by `Zcashd::launch` (src line 122). -/
def zcashdSuccessMarker : String := "init message: Done loading"

/-- Success marker scanned for by `Zainod::launch` (src line 300). -/
def zainodSuccessMarker : String := "Server Ready."

/-- Error marker scanned for by both launch loops (src lines 120, 298). -/
def errorMarker : String := "Error:"

/-- Panic message of `Zcashd::launch` on an error marker (src line 121). -/
def zcashdAbortMsg : String :=
  "Zcashd launch failed without reporting an error code!\nexiting with panic. you may have to shut the daemon down manually."

/-- Panic message of `Zainod::launch` on an error marker (src line 299). -/
def zainodAbortMsg : String :=
  "Zainod launch failed without reporting an error code!\nexiting with panic. you may have to shut the daemon down manually."

/-- Readiness loop of `Zcashd::launch` (src/src/lib.rs lines 93-128): each
iteration first checks `try_wait`; on exit it returns `ProcessFailed` with
the accumulated log content as stdout and the captured stderr; otherwise it
re-reads the log and checks the error marker, then the success marker. -/
def Zcashd.waitLoop : List PollObs → LoopOutcome
  | [] => .polling
  | obs :: rest =>
    match obs.tryWait with
    | .exited st => .failed (.ProcessFailed "zcashd" st obs.log obs.stderr)
    | .errored e => .panicked ("Unexpected Error: " ++ e)
    | .stillRunning =>
      if strContains obs.log errorMarker then .panicked zcashdAbortMsg
      else if strContains obs.log zcashdSuccessMarker then .ready
      else Zcashd.waitLoop rest

/-- Readiness loop of `Zainod::launch` (src/src/lib.rs lines 271-306),
identical to the zcashd loop up to process name, success marker and panic
message. -/
def Zainod.waitLoop : List PollObs → LoopOutcome
  | [] => .polling
  | obs :: rest =>
    match obs.tryWait with
    | .exited st => .failed (.ProcessFailed "zainod" st obs.log obs.stderr)
    | .errored e => .panicked ("Unexpected Error: " ++ e)
    | .stillRunning =>
      if strContains obs.log errorMarker then .panicked zainodAbortMsg
      else if strContains obs.log zainodSuccessMarker then .ready
      else Zainod.waitLoop rest

/-- Results of the fallible setup steps of `Zcashd::launch`, in source
order: `tempfile::tempdir()` for the config dir (line 47), `config::zcashd`
(line 49), `tempfile::tempdir()` for the data dir (line 51),
`command.spawn()` (line 75), `tempfile::tempdir()` for the logs dir
(line 77).  Each is unwrapped by the source, so an error panics. -/
structure SetupEnv where
  configDir : Except String Unit
  configFile : Except String String
  dataDir : Except String Unit
  spawn : Except String Unit
  logsDir : Except String Unit

/-- Results of the fallible setup steps of `Zainod::launch`, in source
order: config dir tempdir (line 234), `config::zainod` (line 235),
`command.spawn()` (line 253), logs dir tempdir (line 255). -/
structure ZainodSetupEnv where
  configDir : Except String Unit
  configFile : Except String String
  spawn : Except String Unit
  logsDir : Except String Unit

/-- How a call to `launch` (or `default`) ends: returns the Ok handle,
returns a typed `LaunchError`, panics, or is still polling at the end of
the observed trace. -/
inductive LaunchResult where
  | ok
  | err (e : LaunchError)
  | panicked (msg : String)
  | polling
deriving Repr, DecidableEq

/-- Decidable test that an `Except` result is `ok`. -/
def exceptIsOk {ε α : Type} : Except ε α → Bool
  | .ok _ => true
  | .error _ => false

/-- All setup steps of `Zcashd::launch` succeeded. -/
def SetupEnv.allOk (env : SetupEnv) : Bool :=
  exceptIsOk env.configDir && exceptIsOk env.configFile &&
    exceptIsOk env.dataDir && exceptIsOk env.spawn && exceptIsOk env.logsDir

/-- All setup steps of `Zainod::launch` succeeded. -/
def ZainodSetupEnv.allOk (env : ZainodSetupEnv) : Bool :=
  exceptIsOk env.configDir && exceptIsOk env.configFile &&
    exceptIsOk env.spawn && exceptIsOk env.logsDir

/-- `Zcashd::launch` (src/src/lib.rs lines 39-138): each fallible setup
step is `.unwrap()`ed in source order (an error panics); then the
readiness loop decides the result — `break` yields the Ok handle,
process exit yields `Err(LaunchError::ProcessFailed ...)`, an error
marker or `try_wait` error panics. -/
def Zcashd.launch (zcashd_bin zcash_cli_bin : Option String)
    (rpc_port : Option Nat) (miner_address : Option String)
    (env : SetupEnv) (trace : List PollObs) : LaunchResult :=
  match env.configDir with
  | .error e => .panicked e
  | .ok _ =>
  match env.configFile with
  | .error e => .panicked e
  | .ok _ =>
  match env.dataDir with
  | .error e => .panicked e
  | .ok _ =>
  match env.spawn with
  | .error e => .panicked e
  | .ok _ =>
  match env.logsDir with
  | .error e => .panicked e
  | .ok _ =>
  match Zcashd.waitLoop trace with
  | .ready => .ok
  | .failed e => .err e
  | .panicked m => .panicked m
  | .polling => .polling

/-- `Zainod::launch` (src/src/lib.rs lines 228-314), same shape as
`Zcashd.launch` without a data dir. -/
def Zainod.launch (zainod_bin : Option String) (listen_port : Option Nat)
    (validator_port : Nat) (env : ZainodSetupEnv)
    (trace : List PollObs) : LaunchResult :=
  match env.configDir with
  | .error e => .panicked e
  | .ok _ =>
  match env.configFile with
  | .error e => .panicked e
  | .ok _ =>
  match env.spawn with
  | .error e => .panicked e
  | .ok _ =>
  match env.logsDir with
  | .error e => .panicked e
  | .ok _ =>
  match Zainod.waitLoop trace with
  | .ready => .ok
  | .failed e => .err e
  | .panicked m => .panicked m
  | .polling => .polling

/-- `Result::unwrap()` as applied by the two `Default` impls: an `Err`
launch result becomes a panic, everything else passes through. -/
def LaunchResult.unwrapDefault : LaunchResult → LaunchResult
  | .err _ => .panicked "called Result::unwrap on an Err value"
  | r => r

/-- `impl Default for Zcashd` (src lines 198-204):
`Zcashd::launch(None, None, None, &ActivationHeights::default(), None).unwrap()`. -/
def Zcashd.default (env : SetupEnv) (trace : List PollObs) : LaunchResult :=
  (Zcashd.launch none none none none env trace).unwrapDefault

/-- `impl Default for Zainod` (src lines 336-342):
`Zainod::launch(None, None, 18232).unwrap()`. -/
def Zainod.default (env : ZainodSetupEnv) (trace : List PollObs) : LaunchResult :=
  (Zainod.launch none none 18232 env trace).unwrapDefault

/-- Observable steps taken by the stop/drop paths: a `zcash-cli`
invocation, `Child::wait`, `Child::kill`, and the tracing log calls. -/
inductive StopAction where
  | cliCommand (args : List String)
  | waitChild
  | killChild
  | logInfo (msg : String)
  | logError (msg : String)
  | logWarn (msg : String)
deriving Repr, DecidableEq

/-- Whether `stop` returns normally or panics. -/
inductive StopOutcome where
  | returned
  | panicked (msg : String)
deriving Repr, DecidableEq

/-- Results of the effectful calls made by `Zcashd::stop`: the
`zcash_cli_command(&["stop"])` invocation, `handle.wait()`, and
`handle.kill()`. -/
structure StopEnv where
  cli : Except String Unit
  wait : Except String Unit
  kill : Except String Unit

/-- `Zcashd::stop` (src/src/lib.rs lines 162-181): invoke
`zcash_cli_command(&["stop"])`; on Ok wait for the process and log the
wait outcome; on Err log the failure and fall back to `kill`, logging a
warning if the kill itself fails.  Every branch returns normally. -/
def Zcashd.stop (env : StopEnv) : List StopAction × StopOutcome :=
  match env.cli with
  | .ok _ =>
    match env.wait with
    | .error e =>
      ([.cliCommand ["stop"], .waitChild,
        .logError ("zcashd cannot be awaited: " ++ e)], .returned)
    | .ok _ =>
      ([.cliCommand ["stop"], .waitChild,
        .logInfo "zcashd successfully shut down"], .returned)
  | .error e =>
    match env.kill with
    | .error e2 =>
      ([.cliCommand ["stop"],
        .logError ("Cannot stop zcashd from zcash-cli: " ++ e
          ++ "\nSending SIGKILL to zcashd process."),
        .killChild,
        .logWarn ("zcashd has already terminated: " ++ e2)], .returned)
    | .ok _ =>
      ([.cliCommand ["stop"],
        .logError ("Cannot stop zcashd from zcash-cli: " ++ e
          ++ "\nSending SIGKILL to zcashd process."),
        .killChild], .returned)

/-- `Zainod::stop` (src/src/lib.rs lines 322-324):
`self.handle.kill().expect(...)` — a bare kill whose error panics. -/
def Zainod.stop (kill : Except String Unit) : List StopAction × StopOutcome :=
  match kill with
  | .ok _ => ([.killChild], .returned)
  | .error e => ([.killChild], .panicked ("zainod could not be killed: " ++ e))

/-- `impl Drop for Zcashd` (src lines 206-210): `self.stop()`. -/
def Zcashd.drop (env : StopEnv) : List StopAction × StopOutcome :=
  Zcashd.stop env

/-- `impl Drop for Zainod` (src lines 344-348): `self.stop()`. -/
def Zainod.drop (kill : Except String Unit) : List StopAction × StopOutcome :=
  Zainod.stop kill

/-- Modelled from the spec: `config::ZCASHD_FILENAME` lives in the missing
`config` module; it is the daemon-specific config file name inside the
instance's config directory.  The concrete name is irrelevant here. -/
def ZCASHD_FILENAME : String := "zcash.conf"

/-- The fields of a `Zcashd` handle that `config_path` and
`zcash_cli_command` read (src lines 19-26): the config directory path and
the optional `zcash-cli` binary override. -/
structure Zcashd where
  configDirPath : String
  zcash_cli_bin : Option String
deriving Repr, DecidableEq

/-- `Zcashd::config_path` (src lines 141-143):
`self.config_dir.path().join(config::ZCASHD_FILENAME)`. -/
def Zcashd.config_path (z : Zcashd) : String :=
  z.configDirPath ++ "/" ++ ZCASHD_FILENAME

/-- A synchronous invocation of the auxiliary control binary: the program
run and its full argument list in order. -/
structure CliInvocation where
  program : String
  args : List String
deriving Repr, DecidableEq

/-- `Zcashd::zcash_cli_command` (src lines 151-159): run the configured
`zcash-cli` binary (or the PATH default) with `-conf=<config_path>` first,
followed by the caller-supplied arguments in order. -/
def Zcashd.zcash_cli_command (z : Zcashd) (args : List String) : CliInvocation :=
  { program := match z.zcash_cli_bin with | some p => p | none => "zcash-cli",
    args := ("-conf=" ++ z.config_path) :: args }

/-- The `.output()` step of `zcash_cli_command`: executing the built
invocation yields the captured output or the invocation error, as decided
by the operating system `exec`. -/
def Zcashd.zcash_cli_command_output (z : Zcashd) (args : List String)
    (exec : CliInvocation → Except String String) : Except String String :=
  exec (Zcashd.zcash_cli_command z args)

/-- `Zcashd::generate_blocks` (src lines 184-186):
`self.zcash_cli_command(&["generate", &num_blocks.to_string()])`. -/
def Zcashd.generate_blocks (z : Zcashd) (num_blocks : Nat) : CliInvocation :=
  Zcashd.zcash_cli_command z ["generate", toString num_blocks]

/-- A poll iteration on which the zcashd loop decides nothing: the process
is still running and the log contains neither marker. -/
def Zcashd.pollContinues (obs : PollObs) : Prop :=
  obs.tryWait = .stillRunning ∧ strContains obs.log errorMarker = false ∧
    strContains obs.log zcashdSuccessMarker = false

/-- A poll iteration on which the zainod loop decides nothing. -/
def Zainod.pollContinues (obs : PollObs) : Prop :=
  obs.tryWait = .stillRunning ∧ strContains obs.log errorMarker = false ∧
    strContains obs.log zainodSuccessMarker = false

instance (obs : PollObs) : Decidable (Zcashd.pollContinues obs) := by
  unfold Zcashd.pollContinues
  infer_instance

instance (obs : PollObs) : Decidable (Zainod.pollContinues obs) := by
  unfold Zainod.pollContinues
  infer_instance

/-- Recognizer for control-channel actions in a stop action trace. -/
def isCliAction : StopAction → Bool
  | .cliCommand _ => true
  | _ => false

/-- Recognizer for a typed-error launch result. -/
def LaunchResult.isTypedErr : LaunchResult → Bool
  | .err _ => true
  | _ => false

/-- A setup environment whose only failure is the process spawn. -/
def envSpawnFail : SetupEnv :=
  { configDir := Except.ok (), configFile := Except.ok "zcash.conf",
    dataDir := Except.ok (), spawn := Except.error "No such file or directory",
    logsDir := Except.ok () }

/-- A fully successful zcashd setup environment. -/
def envAllOk : SetupEnv :=
  { configDir := Except.ok (), configFile := Except.ok "zcash.conf",
    dataDir := Except.ok (), spawn := Except.ok (), logsDir := Except.ok () }

/-- A fully successful zainod setup environment. -/
def envNAllOk : ZainodSetupEnv :=
  { configDir := Except.ok (), configFile := Except.ok "zindexer.toml",
    spawn := Except.ok (), logsDir := Except.ok () }

/-- Mapping from a loop outcome to the result of `launch` once all setup
steps have succeeded. -/
def LoopOutcome.toLaunch : LoopOutcome → LaunchResult
  | .ready => .ok
  | .failed e => .err e
  | .panicked m => .panicked m
  | .polling => .polling

theorem zcashdLoop_cons_continues (obs : PollObs) (rest : List PollObs)
    (h : Zcashd.pollContinues obs) :
    Zcashd.waitLoop (obs :: rest) = Zcashd.waitLoop rest := by
  obtain ⟨h1, h2, h3⟩ := h
  simp [Zcashd.waitLoop, h1, h2, h3]

theorem zainodLoop_cons_continues (obs : PollObs) (rest : List PollObs)
    (h : Zainod.pollContinues obs) :
    Zainod.waitLoop (obs :: rest) = Zainod.waitLoop rest := by
  obtain ⟨h1, h2, h3⟩ := h
  simp [Zainod.waitLoop, h1, h2, h3]

theorem zcashdLoop_append_continues (pre rest : List PollObs)
    (h : ∀ o ∈ pre, Zcashd.pollContinues o) :
    Zcashd.waitLoop (pre ++ rest) = Zcashd.waitLoop rest := by
  induction pre with
  | nil => rfl
  | cons o pre ih =>
    rw [List.cons_append, zcashdLoop_cons_continues o _ (h o (by simp)),
      ih (fun o ho => h o (by simp [ho]))]

theorem zainodLoop_append_continues (pre rest : List PollObs)
    (h : ∀ o ∈ pre, Zainod.pollContinues o) :
    Zainod.waitLoop (pre ++ rest) = Zainod.waitLoop rest := by
  induction pre with
  | nil => rfl
  | cons o pre ih =>
    rw [List.cons_append, zainodLoop_cons_continues o _ (h o (by simp)),
      ih (fun o ho => h o (by simp [ho]))]

theorem zcashdLoop_ready_marker (t : List PollObs)
    (h : Zcashd.waitLoop t = .ready) :
    ∃ obs ∈ t, obs.tryWait = .stillRunning ∧
      strContains obs.log errorMarker = false ∧
      strContains obs.log zcashdSuccessMarker = true := by
  induction t with
  | nil => simp [Zcashd.waitLoop] at h
  | cons obs rest ih =>
    cases htw : obs.tryWait with
    | exited st => simp [Zcashd.waitLoop, htw] at h
    | errored e => simp [Zcashd.waitLoop, htw] at h
    | stillRunning =>
      by_cases he : strContains obs.log errorMarker = true
      · simp [Zcashd.waitLoop, htw, he] at h
      · rw [Bool.not_eq_true] at he
        by_cases hs : strContains obs.log zcashdSuccessMarker = true
        · exact ⟨obs, by simp, htw, he, hs⟩
        · rw [Bool.not_eq_true] at hs
          rw [zcashdLoop_cons_continues obs rest ⟨htw, he, hs⟩] at h
          obtain ⟨o, ho, hrest⟩ := ih h
          exact ⟨o, by simp [ho], hrest⟩

theorem zainodLoop_ready_marker (t : List PollObs)
    (h : Zainod.waitLoop t = .ready) :
    ∃ obs ∈ t, obs.tryWait = .stillRunning ∧
      strContains obs.log errorMarker = false ∧
      strContains obs.log zainodSuccessMarker = true := by
  induction t with
  | nil => simp [Zainod.waitLoop] at h
  | cons obs rest ih =>
    cases htw : obs.tryWait with
    | exited st => simp [Zainod.waitLoop, htw] at h
    | errored e => simp [Zainod.waitLoop, htw] at h
    | stillRunning =>
      by_cases he : strContains obs.log errorMarker = true
      · simp [Zainod.waitLoop, htw, he] at h
      · rw [Bool.not_eq_true] at he
        by_cases hs : strContains obs.log zainodSuccessMarker = true
        · exact ⟨obs, by simp, htw, he, hs⟩
        · rw [Bool.not_eq_true] at hs
          rw [zainodLoop_cons_continues obs rest ⟨htw, he, hs⟩] at h
          obtain ⟨o, ho, hrest⟩ := ih h
          exact ⟨o, by simp [ho], hrest⟩

theorem zcashdLaunch_ok_ready (b c : Option String) (p : Option Nat)
    (m : Option String) (env : SetupEnv) (t : List PollObs)
    (h : Zcashd.launch b c p m env t = .ok) :
    Zcashd.waitLoop t = .ready := by
  obtain ⟨cd, cf, dd, sp, ld⟩ := env
  cases cd <;> cases cf <;> cases dd <;> cases sp <;> cases ld <;>
    simp_all [Zcashd.launch]
  cases ht : Zcashd.waitLoop t <;> simp_all [ht]

theorem zainodLaunch_ok_ready (zb : Option String) (lp : Option Nat)
    (vp : Nat) (env : ZainodSetupEnv) (t : List PollObs)
    (h : Zainod.launch zb lp vp env t = .ok) :
    Zainod.waitLoop t = .ready := by
  obtain ⟨cd, cf, sp, ld⟩ := env
  cases cd <;> cases cf <;> cases sp <;> cases ld <;>
    simp_all [Zainod.launch]
  cases ht : Zainod.waitLoop t <;> simp_all [ht]

theorem zcashdLaunch_allOk (b c : Option String) (p : Option Nat)
    (m : Option String) (env : SetupEnv) (t : List PollObs)
    (h : SetupEnv.allOk env = true) :
    Zcashd.launch b c p m env t = (Zcashd.waitLoop t).toLaunch := by
  obtain ⟨cd, cf, dd, sp, ld⟩ := env
  cases cd <;> cases cf <;> cases dd <;> cases sp <;> cases ld <;>
    try simp_all [SetupEnv.allOk, exceptIsOk]
  cases ht : Zcashd.waitLoop t <;>
    simp [Zcashd.launch, ht, LoopOutcome.toLaunch]

theorem zainodLaunch_allOk (zb : Option String) (lp : Option Nat)
    (vp : Nat) (env : ZainodSetupEnv) (t : List PollObs)
    (h : ZainodSetupEnv.allOk env = true) :
    Zainod.launch zb lp vp env t = (Zainod.waitLoop t).toLaunch := by
  obtain ⟨cd, cf, sp, ld⟩ := env
  cases cd <;> cases cf <;> cases sp <;> cases ld <;>
    try simp_all [ZainodSetupEnv.allOk, exceptIsOk]
  cases ht : Zainod.waitLoop t <;>
    simp [Zainod.launch, ht, LoopOutcome.toLaunch]

/-- C1: for every successful launch of either daemon type, `launch` returns
the Ok handle only after the daemon-specific success marker has been
observed in the accumulated log content, and in that same poll iteration
`try_wait` reported the process still running (and no error marker was
present, or the loop would have panicked first). -/
theorem claim1_launch_ok_after_marker_and_alive :
    (∀ b c p m env t, Zcashd.launch b c p m env t = .ok →
      ∃ obs ∈ t, obs.tryWait = .stillRunning ∧
        strContains obs.log zcashdSuccessMarker = true ∧
        strContains obs.log errorMarker = false) ∧
    (∀ zb lp vp env t, Zainod.launch zb lp vp env t = .ok →
      ∃ obs ∈ t, obs.tryWait = .stillRunning ∧
        strContains obs.log zainodSuccessMarker = true ∧
        strContains obs.log errorMarker = false) := by
  constructor
  · intro b c p m env t h
    obtain ⟨obs, hmem, h1, h2, h3⟩ :=
      zcashdLoop_ready_marker t (zcashdLaunch_ok_ready b c p m env t h)
    exact ⟨obs, hmem, h1, h3, h2⟩
  · intro zb lp vp env t h
    obtain ⟨obs, hmem, h1, h2, h3⟩ :=
      zainodLoop_ready_marker t (zainodLaunch_ok_ready zb lp vp env t h)
    exact ⟨obs, hmem, h1, h3, h2⟩

/-- Witness for C1 at concrete successful launches of both daemons. -/
theorem claim1_witness :
    (∃ obs ∈ [PollObs.mk .stillRunning "init message: Done loading" ""],
      obs.tryWait = .stillRunning ∧
        strContains obs.log zcashdSuccessMarker = true ∧
        strContains obs.log errorMarker = false) ∧
    (∃ obs ∈ [PollObs.mk .stillRunning "Server Ready." ""],
      obs.tryWait = .stillRunning ∧
        strContains obs.log zainodSuccessMarker = true ∧
        strContains obs.log errorMarker = false) :=
  ⟨claim1_launch_ok_after_marker_and_alive.1 none none none none envAllOk
      [PollObs.mk .stillRunning "init message: Done loading" ""] (by decide),
   claim1_launch_ok_after_marker_and_alive.2 none none 18232 envNAllOk
      [PollObs.mk .stillRunning "Server Ready." ""] (by decide)⟩

/-- C2: for every launch where the process exits before the success marker
is observed (all earlier poll iterations decided nothing), `launch` returns
`Err(LaunchError::ProcessFailed ...)` carrying the process name, the real
exit status, a stdout equal to the log file content read at the exit
iteration, and the captured stderr. -/
theorem claim2_exit_before_marker_failed :
    (∀ b c p m env pre obs rest st, SetupEnv.allOk env = true →
      (∀ o ∈ pre, Zcashd.pollContinues o) →
      obs.tryWait = .exited st →
      Zcashd.launch b c p m env (pre ++ obs :: rest) =
        .err (.ProcessFailed "zcashd" st obs.log obs.stderr)) ∧
    (∀ zb lp vp env pre obs rest st, ZainodSetupEnv.allOk env = true →
      (∀ o ∈ pre, Zainod.pollContinues o) →
      obs.tryWait = .exited st →
      Zainod.launch zb lp vp env (pre ++ obs :: rest) =
        .err (.ProcessFailed "zainod" st obs.log obs.stderr)) := by
  constructor
  · intro b c p m env pre obs rest st henv hpre hexit
    rw [zcashdLaunch_allOk b c p m env _ henv,
      zcashdLoop_append_continues pre _ hpre]
    simp [Zcashd.waitLoop, hexit, LoopOutcome.toLaunch]
  · intro zb lp vp env pre obs rest st henv hpre hexit
    rw [zainodLaunch_allOk zb lp vp env _ henv,
      zainodLoop_append_continues pre _ hpre]
    simp [Zainod.waitLoop, hexit, LoopOutcome.toLaunch]

/-- Witness for C2: both daemons, one undecided iteration then an exit
with status 1. -/
theorem claim2_witness :
    Zcashd.launch none none none none envAllOk
        ([PollObs.mk .stillRunning "" ""] ++
          PollObs.mk (.exited 1) "boot log" "some stderr" :: []) =
      .err (.ProcessFailed "zcashd" 1 "boot log" "some stderr") ∧
    Zainod.launch none none 18232 envNAllOk
        ([PollObs.mk .stillRunning "" ""] ++
          PollObs.mk (.exited 1) "boot log" "some stderr" :: []) =
      .err (.ProcessFailed "zainod" 1 "boot log" "some stderr") :=
  ⟨claim2_exit_before_marker_failed.1 none none none none envAllOk
      [PollObs.mk .stillRunning "" ""]
      (PollObs.mk (.exited 1) "boot log" "some stderr") [] 1
      (by decide) (by decide) rfl,
   claim2_exit_before_marker_failed.2 none none 18232 envNAllOk
      [PollObs.mk .stillRunning "" ""]
      (PollObs.mk (.exited 1) "boot log" "some stderr") [] 1
      (by decide) (by decide) rfl⟩

/-- C3: whenever an error marker is in the accumulated log while the
process is still running, the loop resolves the abort panic — an outcome
distinct from every `failed` outcome — and this holds even when the log
also contains the success marker (the error check comes first); the panic
message warns that manual shutdown may be needed, reflecting that the
launch path never kills the process. -/
theorem claim3_abort_on_error_marker :
    (∀ obs rest, obs.tryWait = .stillRunning →
      strContains obs.log errorMarker = true →
      Zcashd.waitLoop (obs :: rest) = .panicked zcashdAbortMsg) ∧
    (∀ obs rest, obs.tryWait = .stillRunning →
      strContains obs.log errorMarker = true →
      Zainod.waitLoop (obs :: rest) = .panicked zainodAbortMsg) ∧
    (∀ m e, LoopOutcome.panicked m ≠ LoopOutcome.failed e) ∧
    strContains zcashdAbortMsg "you may have to shut the daemon down manually" = true ∧
    strContains zainodAbortMsg "you may have to shut the daemon down manually" = true := by
  refine ⟨?_, ?_, ?_, by decide, by decide⟩
  · intro obs rest h1 h2
    simp [Zcashd.waitLoop, h1, h2]
  · intro obs rest h1 h2
    simp [Zainod.waitLoop, h1, h2]
  · intro m e
    simp

/-- Witness for C3 at logs containing both the error marker and the
success marker, with the process still running. -/
theorem claim3_witness :
    Zcashd.waitLoop
        [PollObs.mk .stillRunning "init message: Done loading Error: db" ""] =
      .panicked zcashdAbortMsg ∧
    Zainod.waitLoop
        [PollObs.mk .stillRunning "Server Ready. Error: db" ""] =
      .panicked zainodAbortMsg :=
  ⟨claim3_abort_on_error_marker.1
      (PollObs.mk .stillRunning "init message: Done loading Error: db" "") []
      rfl (by decide),
   claim3_abort_on_error_marker.2.1
      (PollObs.mk .stillRunning "Server Ready. Error: db" "") []
      rfl (by decide)⟩

/-- C7: in every poll iteration the non-blocking exit check comes before
any marker check: an iteration whose `try_wait` reports an exit resolves
as `failed` with full diagnostic context, never as `ready` or as the abort
panic, even when the accumulated log contains both markers. -/
theorem claim7_exit_check_precedes_markers :
    (∀ obs rest st, obs.tryWait = .exited st →
      strContains obs.log errorMarker = true →
      strContains obs.log zcashdSuccessMarker = true →
      Zcashd.waitLoop (obs :: rest) =
          .failed (.ProcessFailed "zcashd" st obs.log obs.stderr) ∧
        Zcashd.waitLoop (obs :: rest) ≠ .ready ∧
        ∀ m2, Zcashd.waitLoop (obs :: rest) ≠ .panicked m2) ∧
    (∀ obs rest st, obs.tryWait = .exited st →
      strContains obs.log errorMarker = true →
      strContains obs.log zainodSuccessMarker = true →
      Zainod.waitLoop (obs :: rest) =
          .failed (.ProcessFailed "zainod" st obs.log obs.stderr) ∧
        Zainod.waitLoop (obs :: rest) ≠ .ready ∧
        ∀ m2, Zainod.waitLoop (obs :: rest) ≠ .panicked m2) := by
  constructor
  · intro obs rest st h _ _
    refine ⟨by simp [Zcashd.waitLoop, h], ?_, ?_⟩
    · simp [Zcashd.waitLoop, h]
    · intro m2
      simp [Zcashd.waitLoop, h]
  · intro obs rest st h _ _
    refine ⟨by simp [Zainod.waitLoop, h], ?_, ?_⟩
    · simp [Zainod.waitLoop, h]
    · intro m2
      simp [Zainod.waitLoop, h]

/-- Witness for C7 at an iteration that exits with both markers present
in the log. -/
theorem claim7_witness :
    Zcashd.waitLoop
        [PollObs.mk (.exited 137) "init message: Done loading Error: oom" "killed"] =
      .failed (.ProcessFailed "zcashd" 137
        "init message: Done loading Error: oom" "killed") ∧
    Zainod.waitLoop
        [PollObs.mk (.exited 137) "Server Ready. Error: oom" "killed"] =
      .failed (.ProcessFailed "zainod" 137 "Server Ready. Error: oom" "killed") :=
  ⟨(claim7_exit_check_precedes_markers.1
      (PollObs.mk (.exited 137) "init message: Done loading Error: oom" "killed")
      [] 137 rfl (by decide) (by decide)).1,
   (claim7_exit_check_precedes_markers.2
      (PollObs.mk (.exited 137) "Server Ready. Error: oom" "killed")
      [] 137 rfl (by decide) (by decide)).1⟩

/-- C4 counterexample: `Zainod::stop` is `self.handle.kill().expect(...)`,
so a kill invocation that returns an error makes the teardown path panic
instead of logging and swallowing the error. -/
theorem claim4_counterexample :
    (Zainod.stop (Except.error "Operation not permitted")).2 =
        StopOutcome.panicked
          ("zainod could not be killed: " ++ "Operation not permitted") ∧
    (Zainod.stop (Except.error "Operation not permitted")).2 ≠
        StopOutcome.returned := by
  decide

/-- C4 amended: for Zcashd handles, `stop` never panics for any outcome of
the cli/wait/kill calls (all stop-time errors are logged and swallowed), so
a second `stop` on an already-stopped handle is never fatal; for Zainod
handles, `stop` returns normally exactly when the kill invocation
succeeds, and panics otherwise. -/
theorem claim4_stop_errors_swallowed_amended :
    (∀ env : StopEnv, (Zcashd.stop env).2 = StopOutcome.returned) ∧
    (∀ env e, env.cli = Except.ok () → env.wait = Except.error e →
      StopAction.logError ("zcashd cannot be awaited: " ++ e) ∈
        (Zcashd.stop env).1) ∧
    (∀ env e e2, env.cli = Except.error e → env.kill = Except.error e2 →
      StopAction.logWarn ("zcashd has already terminated: " ++ e2) ∈
        (Zcashd.stop env).1) ∧
    (∀ k, (Zainod.stop k).2 = StopOutcome.returned ↔ exceptIsOk k = true) := by
  refine ⟨?_, ?_, ?_, ?_⟩
  · intro env
    obtain ⟨cli, w, kl⟩ := env
    cases cli <;> cases w <;> cases kl <;> simp [Zcashd.stop]
  · intro env e hc hw
    obtain ⟨cli, w, kl⟩ := env
    simp only at hc hw
    subst hc
    subst hw
    cases kl <;> simp [Zcashd.stop]
  · intro env e e2 hc hk
    obtain ⟨cli, w, kl⟩ := env
    simp only at hc hk
    subst hc
    subst hk
    cases w <;> simp [Zcashd.stop]
  · intro k
    cases k <;> simp [Zainod.stop, exceptIsOk]

/-- Witness for C4 amended at concrete stop environments. -/
theorem claim4_witness :
    StopAction.logError ("zcashd cannot be awaited: " ++ "EIO") ∈
      (Zcashd.stop
        { cli := Except.ok (), wait := Except.error "EIO",
          kill := Except.ok () }).1 ∧
    StopAction.logWarn ("zcashd has already terminated: " ++ "ESRCH") ∈
      (Zcashd.stop
        { cli := Except.error "connection refused", wait := Except.ok (),
          kill := Except.error "ESRCH" }).1 :=
  ⟨claim4_stop_errors_swallowed_amended.2.1
      { cli := Except.ok (), wait := Except.error "EIO", kill := Except.ok () }
      "EIO" rfl rfl,
   claim4_stop_errors_swallowed_amended.2.2.1
      { cli := Except.error "connection refused", wait := Except.ok (),
        kill := Except.error "ESRCH" }
      "connection refused" "ESRCH" rfl rfl⟩

/-- C5 counterexample: `Zainod::stop` performs a bare kill — its action
trace contains no control-channel invocation at all, so no graceful
shutdown is attempted first. -/
theorem claim5_counterexample :
    (Zainod.stop (Except.ok ())).1 = [StopAction.killChild] ∧
    (Zainod.stop (Except.ok ())).1.any isCliAction = false := by
  decide

/-- C5 amended: for Zcashd handles, `stop` first issues the "stop" command
over the control channel; when that invocation succeeds it waits for the
process and never kills it; only when the invocation fails does it fall
back to `kill`, and a failing kill (already-exited process) is merely
logged, never fatal.  For Zainod handles, `stop` kills directly with no
graceful attempt and panics if the kill invocation errors. -/
theorem claim5_graceful_then_kill_amended :
    (∀ env : StopEnv,
      (Zcashd.stop env).1.head? = some (StopAction.cliCommand ["stop"])) ∧
    (∀ env u, env.cli = Except.ok u →
      StopAction.killChild ∉ (Zcashd.stop env).1 ∧
        StopAction.waitChild ∈ (Zcashd.stop env).1) ∧
    (∀ env e, env.cli = Except.error e →
      StopAction.killChild ∈ (Zcashd.stop env).1 ∧
        StopAction.waitChild ∉ (Zcashd.stop env).1 ∧
        (Zcashd.stop env).2 = StopOutcome.returned) ∧
    (∀ k, (Zainod.stop k).1 = [StopAction.killChild] ∧
      (Zainod.stop k).1.any isCliAction = false) := by
  refine ⟨?_, ?_, ?_, ?_⟩
  · intro env
    obtain ⟨cli, w, kl⟩ := env
    cases cli <;> cases w <;> cases kl <;> simp [Zcashd.stop]
  · intro env u hc
    obtain ⟨cli, w, kl⟩ := env
    simp only at hc
    subst hc
    cases w <;> simp [Zcashd.stop]
  · intro env e hc
    obtain ⟨cli, w, kl⟩ := env
    simp only at hc
    subst hc
    cases kl <;> simp [Zcashd.stop]
  · intro k
    cases k <;> simp [Zainod.stop, isCliAction]

/-- Witness for C5 amended at concrete stop environments. -/
theorem claim5_witness :
    (StopAction.killChild ∉
        (Zcashd.stop
          { cli := Except.ok (), wait := Except.ok (),
            kill := Except.ok () }).1 ∧
      StopAction.waitChild ∈
        (Zcashd.stop
          { cli := Except.ok (), wait := Except.ok (),
            kill := Except.ok () }).1) ∧
    (StopAction.killChild ∈
        (Zcashd.stop
          { cli := Except.error "no cli", wait := Except.ok (),
            kill := Except.error "ESRCH" }).1 ∧
      StopAction.waitChild ∉
        (Zcashd.stop
          { cli := Except.error "no cli", wait := Except.ok (),
            kill := Except.error "ESRCH" }).1 ∧
      (Zcashd.stop
          { cli := Except.error "no cli", wait := Except.ok (),
            kill := Except.error "ESRCH" }).2 = StopOutcome.returned) :=
  ⟨claim5_graceful_then_kill_amended.2.1
      { cli := Except.ok (), wait := Except.ok (), kill := Except.ok () }
      () rfl,
   claim5_graceful_then_kill_amended.2.2.1
      { cli := Except.error "no cli", wait := Except.ok (),
        kill := Except.error "ESRCH" }
      "no cli" rfl⟩

/-- C6 counterexample: a spawn failure is `.unwrap()`ed by `launch`, so it
panics instead of propagating as a typed `LaunchError` result. -/
theorem claim6_counterexample :
    Zcashd.launch none none none none envSpawnFail [] =
        LaunchResult.panicked "No such file or directory" ∧
    LaunchResult.isTypedErr
        (Zcashd.launch none none none none envSpawnFail []) = false := by
  decide

/-- C6 amended: setup failures (tempdir creation, config-file writing,
process spawn) make `launch` panic rather than return; the typed
`LaunchError` result arises exactly from the readiness loop's
process-failure path, which requires every setup step to have succeeded. -/
theorem claim6_setup_panics_amended :
    (∀ b c p m env t e, Zcashd.launch b c p m env t = LaunchResult.err e →
      SetupEnv.allOk env = true ∧ Zcashd.waitLoop t = .failed e) ∧
    (∀ b c p m env t, SetupEnv.allOk env = false →
      ∃ msg, Zcashd.launch b c p m env t = .panicked msg) ∧
    (∀ zb lp vp env t e, Zainod.launch zb lp vp env t = LaunchResult.err e →
      ZainodSetupEnv.allOk env = true ∧ Zainod.waitLoop t = .failed e) ∧
    (∀ zb lp vp env t, ZainodSetupEnv.allOk env = false →
      ∃ msg, Zainod.launch zb lp vp env t = .panicked msg) := by
  refine ⟨?_, ?_, ?_, ?_⟩
  · intro b c p m env t e h
    obtain ⟨cd, cf, dd, sp, ld⟩ := env
    cases cd <;> cases cf <;> cases dd <;> cases sp <;> cases ld <;>
      simp_all [Zcashd.launch, SetupEnv.allOk, exceptIsOk]
    cases ht : Zcashd.waitLoop t <;> simp_all [ht]
  · intro b c p m env t h
    obtain ⟨cd, cf, dd, sp, ld⟩ := env
    cases cd <;> cases cf <;> cases dd <;> cases sp <;> cases ld <;>
      simp_all [Zcashd.launch, SetupEnv.allOk, exceptIsOk]
  · intro zb lp vp env t e h
    obtain ⟨cd, cf, sp, ld⟩ := env
    cases cd <;> cases cf <;> cases sp <;> cases ld <;>
      simp_all [Zainod.launch, ZainodSetupEnv.allOk, exceptIsOk]
    cases ht : Zainod.waitLoop t <;> simp_all [ht]
  · intro zb lp vp env t h
    obtain ⟨cd, cf, sp, ld⟩ := env
    cases cd <;> cases cf <;> cases sp <;> cases ld <;>
      simp_all [Zainod.launch, ZainodSetupEnv.allOk, exceptIsOk]

/-- Witness for C6 amended: an err result forces a failed loop outcome,
and a failing setup environment forces a panic. -/
theorem claim6_witness :
    (SetupEnv.allOk envAllOk = true ∧
      Zcashd.waitLoop [PollObs.mk (.exited 1) "" ""] =
        .failed (.ProcessFailed "zcashd" 1 "" "")) ∧
    (∃ msg, Zcashd.launch none none none none envSpawnFail [] =
      .panicked msg) :=
  ⟨claim6_setup_panics_amended.1 none none none none envAllOk
      [PollObs.mk (.exited 1) "" ""] (.ProcessFailed "zcashd" 1 "" "")
      (by decide),
   claim6_setup_panics_amended.2.1 none none none none envSpawnFail []
      (by decide)⟩

/-- C8: dropping a handle of either type performs exactly the single
`stop()` call (the Drop impls are `self.stop()`), and that one stop
sequence makes exactly one termination attempt: for Zcashd exactly one
control-channel invocation (with `kill` only as its fallback), for Zainod
exactly one kill — so a caller that never calls `stop()` explicitly still
gets the process torn down on drop. -/
theorem claim8_drop_invokes_stop_once :
    (∀ env : StopEnv, Zcashd.drop env = Zcashd.stop env ∧
      (Zcashd.drop env).1.filter isCliAction =
        [StopAction.cliCommand ["stop"]]) ∧
    (∀ k, Zainod.drop k = Zainod.stop k ∧
      (Zainod.drop k).1 = [StopAction.killChild]) := by
  constructor
  · intro env
    refine ⟨rfl, ?_⟩
    obtain ⟨cli, w, kl⟩ := env
    cases cli <;> cases w <;> cases kl <;>
      simp [Zcashd.drop, Zcashd.stop, isCliAction, List.filter]
  · intro k
    refine ⟨rfl, ?_⟩
    cases k <;> simp [Zainod.drop, Zainod.stop]

/-- C9: the control-channel invocation runs the configured binary with the
instance's config path as a `-conf=` argument placed before the
caller-supplied arguments, in order; executing it returns whatever the
operating system produces for exactly that invocation; and for every `n`,
`generate_blocks(n)` is precisely the control-channel invocation with
arguments `["generate", n.to_string()]`. -/
theorem claim9_cli_args_and_generate_blocks :
    (∀ z : Zcashd, ∀ args : List String,
      (Zcashd.zcash_cli_command z args).args =
        ("-conf=" ++ z.config_path) :: args) ∧
    (∀ z args exec, Zcashd.zcash_cli_command_output z args exec =
      exec (Zcashd.zcash_cli_command z args)) ∧
    (∀ z n, Zcashd.generate_blocks z n =
      Zcashd.zcash_cli_command z ["generate", toString n]) := by
  refine ⟨?_, ?_, ?_⟩
  · intro z args
    rfl
  · intro z args exec
    rfl
  · intro z n
    rfl

/-- C10: both Default constructors launch with the default parameters —
no binary path overrides, no fixed port, and validator port 18232 for
zainod — and `.unwrap()` the result, so a launch failure panics instead
of returning the error to the caller, while a successful launch yields
the handle. -/
theorem claim10_default_launch_unwraps :
    (∀ env t, Zcashd.launch none none none none env t = LaunchResult.ok →
      Zcashd.default env t = LaunchResult.ok) ∧
    (∀ env t e, Zcashd.launch none none none none env t = LaunchResult.err e →
      Zcashd.default env t =
        LaunchResult.panicked "called Result::unwrap on an Err value") ∧
    (∀ env t, Zainod.launch none none 18232 env t = LaunchResult.ok →
      Zainod.default env t = LaunchResult.ok) ∧
    (∀ env t e, Zainod.launch none none 18232 env t = LaunchResult.err e →
      Zainod.default env t =
        LaunchResult.panicked "called Result::unwrap on an Err value") := by
  refine ⟨?_, ?_, ?_, ?_⟩
  · intro env t h
    simp [Zcashd.default, h, LaunchResult.unwrapDefault]
  · intro env t e h
    simp [Zcashd.default, h, LaunchResult.unwrapDefault]
  · intro env t h
    simp [Zainod.default, h, LaunchResult.unwrapDefault]
  · intro env t e h
    simp [Zainod.default, h, LaunchResult.unwrapDefault]

/-- Witness for C10 at concrete successful and failing default launches. -/
theorem claim10_witness :
    Zcashd.default envAllOk
        [PollObs.mk .stillRunning "init message: Done loading" ""] =
      LaunchResult.ok ∧
    Zcashd.default envAllOk [PollObs.mk (.exited 1) "" ""] =
      LaunchResult.panicked "called Result::unwrap on an Err value" ∧
    Zainod.default envNAllOk [PollObs.mk .stillRunning "Server Ready." ""] =
      LaunchResult.ok ∧
    Zainod.default envNAllOk [PollObs.mk (.exited 1) "" ""] =
      LaunchResult.panicked "called Result::unwrap on an Err value" :=
  ⟨claim10_default_launch_unwraps.1 envAllOk
      [PollObs.mk .stillRunning "init message: Done loading" ""] (by decide),
   claim10_default_launch_unwraps.2.1 envAllOk
      [PollObs.mk (.exited 1) "" ""] (.ProcessFailed "zcashd" 1 "" "")
      (by decide),
   claim10_default_launch_unwraps.2.2.1 envNAllOk
      [PollObs.mk .stillRunning "Server Ready." ""] (by decide),
   claim10_default_launch_unwraps.2.2.2 envNAllOk
      [PollObs.mk (.exited 1) "" ""] (.ProcessFailed "zainod" 1 "" "")
      (by decide)⟩
